import Mathlib

/-!
Verification of the MoodRhythm core (mood_analyzer.py, typing_logger.py)
against its natural-language specification.

Modelling conventions:
* Python floats are modelled as exact rationals (`ℚ`); machine rounding is
  not modelled.
* Python `round(x, n)` (banker's rounding) is `pyRound x n`;
  `int(x)` (truncation toward zero) is `pyInt x`.
* Python dict results become structures; an absent / empty-dict field is
  `Option.none`.
* `np.std` involves a square root, which is irrational in general; the
  coefficient of variation `cv = std/mean` is therefore passed to
  `detect_mood` as an explicit parameter (an arbitrary value where a claim
  does not constrain it), and windowed callers receive a `cvF` oracle
  computing it from a window's interval list.
-/

namespace MoodRhythm

/-- Python `int()` on a rational: truncation toward zero. -/
def pyInt (q : ℚ) : ℤ := if q < 0 then ⌈q⌉ else ⌊q⌋

/-- Round to the nearest integer, ties to even (Python `round`). -/
def roundHalfEven (q : ℚ) : ℤ :=
  let f := ⌊q⌋
  let r := q - f
  if r < 1/2 then f
  else if 1/2 < r then f + 1
  else if f % 2 = 0 then f else f + 1

/-- Python `round(q, n)` for rationals. -/
def pyRound (q : ℚ) (n : ℕ) : ℚ := (roundHalfEven (q * 10 ^ n) : ℚ) / 10 ^ n

/-- `np.mean` on a rational list (callers guard against the empty list). -/
def mean (xs : List ℚ) : ℚ := xs.sum / (xs.length : ℚ)

/-- TimingEvent: one record per keypress (typing_logger.py `_on_press`).
`interval` is absent for the first event of a session. -/
structure Event where
  timestamp : ℚ
  interval : Option ℚ
  is_pause : Bool
  is_burst : Bool
  session_id : Option String := none
deriving DecidableEq, Repr

/-- `[e['interval'] for e in events if e.get('interval') is not None]`. -/
def intervalsOf (events : List Event) : List ℚ :=
  events.filterMap (fun e => e.interval)

/-- `sum(1 for e in events if e.get('is_burst', False))`. -/
def burstCount (events : List Event) : ℕ :=
  (events.filter (fun e => e.is_burst)).length

/-- `sum(1 for e in events if e.get('is_pause', False))`. -/
def pauseCount (events : List Event) : ℕ :=
  (events.filter (fun e => e.is_pause)).length

/-- `burst_count / len(events)` (callers guard the empty list). -/
def burstFracOf (events : List Event) : ℚ :=
  (burstCount events : ℚ) / (events.length : ℚ)

/-- `pause_count / len(events)` (callers guard the empty list). -/
def pauseFracOf (events : List Event) : ℚ :=
  (pauseCount events : ℚ) / (events.length : ℚ)

/-- mood_analyzer.py `calculate_energy_score(events, wpm=None)`.
The wpm boost runs under Python truthiness (`if wpm:`), i.e. only for a
supplied nonzero wpm. -/
def calculate_energy_score (events : List Event) (w? : Option ℚ) : ℤ :=
  if events = [] then 50
  else if intervalsOf events = [] then 50
  else
    let avg := mean (intervalsOf events)
    let speedScore := max 0 (min 100 (100 - avg / 10))
    let burstScore := min 100 (burstFracOf events * 300)
    let pausePenalty := pauseFracOf events * 50
    let energy := speedScore * (4/10) + burstScore * (4/10) - pausePenalty
    let energy2 :=
      match w? with
      | some w => if w ≠ 0 then energy * min (3/2) (w / 40) else energy
      | none => energy
    max 0 (min 100 (pyInt energy2))

/-- Mood states of mood_analyzer.py. -/
inductive Mood where
  | focused
  | stressed
  | relaxed
  | fatigued
  | neutral
deriving DecidableEq, Repr

/-- The `indicators` dictionary built by `detect_mood` (rounded metrics). -/
structure Indicators where
  avg_interval : ℚ
  rhythm_consistency : ℚ
  burstFrac : ℚ
  pauseFrac : ℚ
  wpm : ℚ
deriving DecidableEq, Repr

/-- Return value of `detect_mood`; the empty indicators dict is `none`. -/
structure MoodResult where
  mood : Mood
  confidence : ℚ
  indicators : Option Indicators
deriving DecidableEq, Repr

/-- `(events[-1]['timestamp'] - events[0]['timestamp']) / 1000 / 60`
(callers guard the empty list; the `getD 0` defaults are never reached). -/
def spanMinutes (events : List Event) : ℚ :=
  (((events.getLast?.map (fun e => e.timestamp)).getD 0)
    - ((events.head?.map (fun e => e.timestamp)).getD 0)) / 1000 / 60

/-- The wpm `detect_mood` works with: the supplied value when one is given
(`wpm is None` check), otherwise
`(len(events)/5) / max(session_duration, 0.01) if session_duration > 0 else 0`. -/
def usedWpm (events : List Event) (w? : Option ℚ) : ℚ :=
  match w? with
  | some w => w
  | none =>
    if 0 < spanMinutes events then
      ((events.length : ℚ) / 5) / max (spanMinutes events) (1/100)
    else 0

/-- The rounded `indicators` dict built by `detect_mood` on sufficient
data. -/
def indOf (events : List Event) (w? : Option ℚ) (cv : ℚ) : Indicators :=
  ⟨pyRound (mean (intervalsOf events)) 1, pyRound (1 - min cv 1) 2,
    pyRound (burstFracOf events) 3, pyRound (pauseFracOf events) 3,
    pyRound (usedWpm events w?) 1⟩

/-- mood_analyzer.py `detect_mood(events, wpm=None)`.  `cv` is the
coefficient of variation `std(intervals)/mean(intervals)` (0 when the mean
is 0), passed as a parameter because of its square root; every other
metric is computed from `events` exactly as in the source.  The Python
guard `if not events or len(events) < 10` is `events.length < 10` (an
empty list has length 0 < 10), and the final `min(confidence, 1.0)` is
distributed into the branches. -/
def detect_mood (events : List Event) (w? : Option ℚ) (cv : ℚ) : MoodResult :=
  if events.length < 10 then ⟨Mood.neutral, 0, none⟩
  else if (intervalsOf events).length < 5 then ⟨Mood.neutral, 0, none⟩
  else if cv < 3/10 ∧ 35 < usedWpm events w? then
    ⟨Mood.focused, min (7/10 + 3/10 * (1 - cv)) 1, some (indOf events w? cv)⟩
  else if 3/10 < burstFracOf events ∧ 1/2 < cv then
    ⟨Mood.stressed, min (6/10 + burstFracOf events * (4/10)) 1,
      some (indOf events w? cv)⟩
  else if usedWpm events w? < 30 ∧ pauseFracOf events < 1/10 then
    ⟨Mood.relaxed, min (6/10 + (4/10) * (1 - usedWpm events w? / 30)) 1,
      some (indOf events w? cv)⟩
  else if 1/10 < pauseFracOf events then
    ⟨Mood.fatigued, min (1/2 + pauseFracOf events * 2) 1,
      some (indOf events w? cv)⟩
  else ⟨Mood.neutral, min (1/2) 1, some (indOf events w? cv)⟩

/-- The metrics the spec's rule list reads. -/
structure Metrics where
  cv : ℚ
  burstFrac : ℚ
  pauseFrac : ℚ
  wpm : ℚ

/-- The metrics `detect_mood events w? cv` actually classifies on. -/
def metricsOf (events : List Event) (w? : Option ℚ) (cv : ℚ) : Metrics :=
  ⟨cv, burstFracOf events, pauseFracOf events, usedWpm events w?⟩

/-- Modelled from the spec's words (§4.2): the ordered rule list
`(predicate, mood, confidence formula)` of the mood classifier. -/
def ruleList : List ((Metrics → Bool) × Mood × (Metrics → ℚ)) :=
  [ (fun m => decide (m.cv < 3/10 ∧ 35 < m.wpm), Mood.focused,
      fun m => 7/10 + 3/10 * (1 - m.cv)),
    (fun m => decide (3/10 < m.burstFrac ∧ 1/2 < m.cv), Mood.stressed,
      fun m => 6/10 + m.burstFrac * (4/10)),
    (fun m => decide (m.wpm < 30 ∧ m.pauseFrac < 1/10), Mood.relaxed,
      fun m => 6/10 + (4/10) * (1 - m.wpm / 30)),
    (fun m => decide (1/10 < m.pauseFrac), Mood.fatigued,
      fun m => 1/2 + m.pauseFrac * 2) ]

/-- Modelled from the spec's words: first-match-wins evaluation of an
ordered rule list, default Neutral with confidence 0.5. -/
def firstMatch : List ((Metrics → Bool) × Mood × (Metrics → ℚ)) → Metrics → Mood × ℚ
  | [], _ => (Mood.neutral, 1/2)
  | (p, md, c) :: rest, m => if p m then (md, c m) else firstMatch rest m

/-- Modelled from the spec's words: rule-list classification with the
confidence clamped to at most 1. -/
def specMoodOf (m : Metrics) : Mood × ℚ :=
  let r := firstMatch ruleList m
  (r.1, min r.2 1)

/-- Return dict of `analyze_session`.  The empty-input default dict has
no `mood_confidence` key, hence the `Option`. -/
structure SessionAnalysis where
  mood : Mood
  mood_confidence : Option ℚ
  energy_score : ℤ
  wpm : ℚ
  total_keypresses : ℕ
  duration_seconds : ℚ
  indicators : Option Indicators
deriving DecidableEq, Repr

/-- mood_analyzer.py `analyze_session(events)`.  `cvF` computes the
coefficient of variation of a window's interval list (see `detect_mood`).
The source sets `duration_minutes = duration_seconds / 60` inside the
`len >= 2` branch and 0 otherwise; dividing the conditional seconds by 60
yields the same value (0/60 = 0). -/
def analyze_session (cvF : List ℚ → ℚ) (events : List Event) : SessionAnalysis :=
  if events = [] then ⟨Mood.neutral, none, 50, 0, 0, 0, none⟩
  else
    let durationSeconds : ℚ :=
      if 2 ≤ events.length then
        (((events.getLast?.map (fun e => e.timestamp)).getD 0)
          - ((events.head?.map (fun e => e.timestamp)).getD 0)) / 1000
      else 0
    let wpm := ((events.length : ℚ) / 5) / max (durationSeconds / 60) (1/100)
    let moodRes := detect_mood events (some wpm) (cvF (intervalsOf events))
    ⟨moodRes.mood, some moodRes.confidence,
      calculate_energy_score events (some wpm), pyRound wpm 1,
      events.length, pyRound durationSeconds 1, moodRes.indicators⟩

/-- One point of the mood timeline. -/
structure TimelinePoint where
  timestamp : ℚ
  mood : Mood
  energy_score : ℤ
  wpm : ℚ
deriving DecidableEq, Repr

/-- Python `range(0, stop, step)` for a positive step. -/
def pyRange (stop step : ℕ) : List ℕ :=
  (List.range ((stop + step - 1) / step)).map (fun k => k * step)

/-- The timeline entry built from one window:
`{'timestamp': window[-1]['timestamp'], 'mood': ..., 'energy_score': ...,
'wpm': ...}` (`timestamp` falls back to 0 for the empty whole-sequence
window, matching `events[-1]['timestamp'] if events else 0`). -/
def pointOf (cvF : List ℚ → ℚ) (window : List Event) : TimelinePoint :=
  ⟨(window.getLast?.map (fun e => e.timestamp)).getD 0,
    (analyze_session cvF window).mood,
    (analyze_session cvF window).energy_score,
    (analyze_session cvF window).wpm⟩

/-- mood_analyzer.py `calculate_mood_timeline(events, window_size=30)`:
step `max(1, window_size // 2)`, windows `events[i:i+window_size]` for
`i in range(0, len(events) - window_size + 1, step)`. -/
def calculate_mood_timeline (cvF : List ℚ → ℚ) (events : List Event)
    (ws : ℕ) : List TimelinePoint :=
  if events.length < ws then [pointOf cvF events]
  else
    (pyRange (events.length - ws + 1) (max 1 (ws / 2))).map
      (fun i => pointOf cvF ((events.drop i).take ws))

/-- One record of the pre-aggregated hourly stats fed to
`get_weekly_rhythm`. -/
structure HourStat where
  day_of_week : ℕ
  hour : ℕ
  keypress_count : ℤ
deriving DecidableEq, Repr

/-- `[[0 for _ in range(24)] for _ in range(7)]`. -/
def initMatrix : List (List ℤ) := List.replicate 7 (List.replicate 24 0)

/-- `activity_matrix[day][hour] = value` (Python list assignment;
`List.set` is a no-op out of range where Python would raise). -/
def setCell (m : List (List ℤ)) (d h : ℕ) (v : ℤ) : List (List ℤ) :=
  m.set d ((m.getD d []).set h v)

/-- `activity_matrix[day][hour]` with default 0 out of range. -/
def getCell (m : List (List ℤ)) (d h : ℕ) : ℤ := (m.getD d []).getD h 0

/-- One iteration of the matrix-filling loop of `get_weekly_rhythm`. -/
def applyStat (m : List (List ℤ)) (s : HourStat) : List (List ℤ) :=
  setCell m s.day_of_week s.hour s.keypress_count

/-- The dense 7×24 activity matrix built from the stat records in list
order. -/
def buildMatrix (stats : List HourStat) : List (List ℤ) :=
  stats.foldl applyStat initMatrix

/-- The peak-finding scan of `get_weekly_rhythm`: day-major then
hour-ascending, strict `>` against the running maximum (first maximum
wins), accumulator `(max_activity, peak_hour, peak_day)` starting at
`(0, 0, 0)`. -/
def peakScan (m : List (List ℤ)) : ℤ × ℕ × ℕ :=
  (List.range 7).foldl (fun acc day =>
    (List.range 24).foldl (fun acc2 hour =>
      if acc2.1 < getCell m day hour then (getCell m day hour, hour, day)
      else acc2) acc) (0, 0, 0)

/-- The two free-text insight strings, modelled by which facts they
carry rather than by their literal text. -/
inductive Insight where
  | peakActivity (day hour : ℕ)
  | mostActiveDay (day : ℕ)
deriving DecidableEq, Repr

/-- Return dict of `get_weekly_rhythm`. -/
structure WeeklyRhythm where
  peak_hour : Option ℕ
  peak_day : Option ℕ
  activity_matrix : List (List ℤ)
  insights : List Insight
deriving DecidableEq, Repr

/-- mood_analyzer.py `get_weekly_rhythm(hourly_stats)`.  Python's
`any(daily_totals)` is truthiness (any nonzero total) and
`daily_totals.index(max(daily_totals))` is the first index attaining the
maximum. -/
def get_weekly_rhythm (hourly_stats : List HourStat) : WeeklyRhythm :=
  if hourly_stats = [] then ⟨none, none, [], []⟩
  else
    let m := buildMatrix hourly_stats
    let p := peakScan m
    let totals := m.map (fun row => row.sum)
    let ins1 : List Insight :=
      if 0 < p.1 then [Insight.peakActivity p.2.2 p.2.1] else []
    let ins2 : List Insight :=
      if totals.any (fun t => t != 0) then
        [Insight.mostActiveDay
          (totals.findIdx (fun t => t == (totals.max?).getD 0))]
      else []
    ⟨some p.2.1, some p.2.2, m, ins1 ++ ins2⟩

/-- All cells of a matrix are zero. -/
def AZ (m : List (List ℤ)) : Prop := ∀ row ∈ m, ∀ x ∈ row, x = 0

/-- The matrix has exactly 7 rows of exactly 24 entries. -/
def Shaped (m : List (List ℤ)) : Prop :=
  m.length = 7 ∧ ∀ row ∈ m, row.length = 24

/-- Mutable state of typing_logger.py `TypingLogger` (the fields touched
by `_on_press` and `get_current_stats`). -/
structure LoggerState where
  is_running : Bool
  session_id : Option String
  session_start_time : ℚ
  last_keypress_time : Option ℚ
  keypress_count : ℕ
  events : List Event
deriving Repr

/-- Return dict of `get_current_stats`. -/
structure CurrentStats where
  wpm : ℚ
  avg_interval : ℚ
  pause_count : ℕ
  burst_count : ℕ
  keypress_count : ℕ
  session_duration : ℚ
deriving DecidableEq, Repr

/-- typing_logger.py `get_current_stats()`.  `now` is the value of
`time.time() * 1000` at the moment of the call. -/
def get_current_stats (s : LoggerState) (now : ℚ) : CurrentStats :=
  if s.is_running = false ∨ s.events = [] then ⟨0, 0, 0, 0, 0, 0⟩
  else
    let durMin := (now - s.session_start_time) / 1000 / 60
    let wpm := ((s.keypress_count : ℚ) / 5) / max durMin (1/100)
    let avg :=
      if intervalsOf s.events = [] then 0 else mean (intervalsOf s.events)
    ⟨pyRound wpm 1, pyRound avg 1, pauseCount s.events, burstCount s.events,
      s.keypress_count, pyRound (durMin * 60) 1⟩

/-- The TimingEvent `_on_press` builds at instant `now`: no interval and
no flags for the first event of a session, otherwise
`interval = now - last_keypress_time`, `is_pause = interval > 2000`,
`is_burst = interval < 50`. -/
def newEventOf (s : LoggerState) (now : ℚ) : Event :=
  match s.last_keypress_time with
  | none => ⟨now, none, false, false, s.session_id⟩
  | some t =>
    ⟨now, some (now - t), decide (2000 < now - t), decide (now - t < 50),
      s.session_id⟩

/-- typing_logger.py `_on_press(key)`.  The state updates (last keypress
time, counter, append) happen first, then the registered callback runs on
the finished event; the source has no try/except around the call, so an
exception the callback raises leaves `_on_press` — it is the
`Option String` component, `none` meaning a normal return. -/
def on_press (s : LoggerState) (cb : Option (Event → Except String Unit))
    (now : ℚ) : LoggerState × Option String :=
  let s' := { s with last_keypress_time := some now,
                     keypress_count := s.keypress_count + 1,
                     events := s.events ++ [newEventOf s now] }
  match cb with
  | none => (s', none)
  | some f =>
    match f (newEventOf s now) with
    | Except.ok _ => (s', none)
    | Except.error msg => (s', some msg)

/-- Spec §3 invariant on one event: never pause and burst at once, and
neither flag without an interval. -/
def eventOK (e : Event) : Prop :=
  ¬(e.is_pause = true ∧ e.is_burst = true)
  ∧ (e.interval = none → e.is_pause = false ∧ e.is_burst = false)

/-- A stopped logger with an empty buffer. -/
def stoppedState : LoggerState := ⟨false, none, 0, none, 0, []⟩

/-- A freshly started logger (no keypress yet). -/
def startedState : LoggerState := ⟨true, some "sid", 0, none, 0, []⟩

/-- A running logger that has seen one keypress at instant 0. -/
def runningState1 : LoggerState :=
  ⟨true, some "sid", 0, some 0, 1,
    [{ timestamp := 0, interval := none, is_pause := false,
       is_burst := false, session_id := some "sid" }]⟩

/-- A concrete pause event (interval 2500 ms > 2000 ms). -/
def exPauseEvent : Event :=
  { timestamp := 0, interval := some 2500, is_pause := true, is_burst := false }

/-- A concrete normal event (interval 100 ms). -/
def exNormEvent : Event :=
  { timestamp := 0, interval := some 100, is_pause := false, is_burst := false }

/-- 20 events, 15 of them pauses: the scenario of spec §8. -/
def events20 : List Event :=
  List.replicate 15 exPauseEvent ++ List.replicate 5 exNormEvent

/-- 10 events sharing one timestamp (zero session span), all with a
defined interval. -/
def events10z : List Event :=
  List.replicate 10
    { timestamp := 1000, interval := some 100, is_pause := false, is_burst := false }

/-- 10 events spanning 30000 ms (0.5 min), all with a defined interval. -/
def events10s : List Event :=
  { timestamp := 0, interval := some 100, is_pause := false, is_burst := false }
    :: List.replicate 8
        { timestamp := 15000, interval := some 100, is_pause := false,
          is_burst := false }
    ++ [{ timestamp := 30000, interval := some 100, is_pause := false,
          is_burst := false }]

end MoodRhythm

namespace MoodRhythm

/-- Helper: rounding an integer changes nothing. -/
theorem roundHalfEven_int (n : ℤ) : roundHalfEven (n : ℚ) = n := by
  unfold roundHalfEven
  rw [Int.floor_intCast]
  norm_num

/-- Helper: evaluate `pyRound` once the scaled value is a known integer. -/
theorem pyRound_eq (q : ℚ) (k : ℕ) (m : ℤ) (h : q * 10 ^ k = (m : ℚ)) :
    pyRound q k = (m : ℚ) / 10 ^ k := by
  unfold pyRound
  rw [h, roundHalfEven_int]

/-- Helper: on sufficient data `specMoodOf` is the nested conditional of
the spec's rule list. -/
theorem specMoodOf_eq (m : Metrics) :
    specMoodOf m =
      if m.cv < 3/10 ∧ 35 < m.wpm then
        (Mood.focused, min (7/10 + 3/10 * (1 - m.cv)) 1)
      else if 3/10 < m.burstFrac ∧ 1/2 < m.cv then
        (Mood.stressed, min (6/10 + m.burstFrac * (4/10)) 1)
      else if m.wpm < 30 ∧ m.pauseFrac < 1/10 then
        (Mood.relaxed, min (6/10 + (4/10) * (1 - m.wpm / 30)) 1)
      else if 1/10 < m.pauseFrac then
        (Mood.fatigued, min (1/2 + m.pauseFrac * 2) 1)
      else (Mood.neutral, min (1/2) 1) := by
  simp only [specMoodOf, ruleList, firstMatch, decide_eq_true_eq]
  split_ifs <;> rfl

/-- Claim C1: for every event list (in particular every non-empty one) the
energy score is an integer in [0, 100]; for an empty list, and for a list
in which no event has a defined interval, it is exactly 50. -/
theorem C1_energy_score_range (events : List Event) (w? : Option ℚ) :
    0 ≤ calculate_energy_score events w? ∧ calculate_energy_score events w? ≤ 100
    ∧ (events = [] → calculate_energy_score events w? = 50)
    ∧ (intervalsOf events = [] → calculate_energy_score events w? = 50) := by
  unfold calculate_energy_score
  split_ifs with h1 h2
  · exact ⟨by norm_num, by norm_num, fun _ => rfl, fun _ => rfl⟩
  · exact ⟨by norm_num, by norm_num, fun he => absurd he h1, fun _ => rfl⟩
  · refine ⟨le_max_left _ _, max_le (by norm_num) (min_le_left _ _), ?_, ?_⟩
    · intro he; exact absurd he h1
    · intro hi; exact absurd hi h2

/-- Concrete instance of C1: the empty list scores exactly 50. -/
theorem C1_energy_score_range_witness : calculate_energy_score [] none = 50 :=
  (C1_energy_score_range [] none).2.2.1 rfl

/-- Claim C2: on data passing the sufficiency thresholds, `detect_mood`
classifies exactly as the spec's first-match-wins ordered rule list
(rules 1-4, else Neutral with confidence 0.5, confidence clamped to 1);
in particular a 20-event input with 15 pauses on which rules 1-3 do not
fire yields Fatigued with confidence `min(0.5 + 0.75*2, 1) = 1`. -/
theorem C2_rule_order (events : List Event) (w? : Option ℚ) (cv : ℚ)
    (h10 : 10 ≤ events.length) (h5 : 5 ≤ (intervalsOf events).length) :
    ((detect_mood events w? cv).mood, (detect_mood events w? cv).confidence)
        = specMoodOf (metricsOf events w? cv)
    ∧ (events.length = 20 → pauseCount events = 15 →
        ¬(cv < 3/10 ∧ 35 < usedWpm events w?) →
        ¬(3/10 < burstFracOf events ∧ 1/2 < cv) →
        ¬(usedWpm events w? < 30 ∧ pauseFracOf events < 1/10) →
        (detect_mood events w? cv).mood = Mood.fatigued
        ∧ (detect_mood events w? cv).confidence = 1) := by
  have hn10 : ¬ events.length < 10 := by omega
  have hn5 : ¬ (intervalsOf events).length < 5 := by omega
  constructor
  · rw [specMoodOf_eq]
    unfold detect_mood
    rw [if_neg hn10, if_neg hn5]
    simp only [metricsOf]
    split_ifs <;> rfl
  · intro hlen hpc hr1 hr2 hr3
    have hfrac : pauseFracOf events = 3/4 := by
      unfold pauseFracOf
      rw [hpc, hlen]; norm_num
    have hr4 : (1:ℚ)/10 < pauseFracOf events := by rw [hfrac]; norm_num
    unfold detect_mood
    rw [if_neg hn10, if_neg hn5, if_neg hr1, if_neg hr2, if_neg hr3,
      if_pos hr4]
    refine ⟨rfl, ?_⟩
    show min (1/2 + pauseFracOf events * 2) 1 = 1
    rw [hfrac]; norm_num

/-- Concrete instance of C2 (the spec §8 scenario): 20 events with 15
pauses, supplied wpm 31, cv 0 — rules 1-3 fail, rule 4 fires, the result
is Fatigued with confidence 1. -/
theorem C2_rule_order_witness :
    (detect_mood events20 (some 31) 0).mood = Mood.fatigued
    ∧ (detect_mood events20 (some 31) 0).confidence = 1 :=
  (C2_rule_order events20 (some 31) 0 (by decide) (by decide)).2
    (by decide) (by decide)
    (by norm_num [usedWpm]) (by norm_num) (by norm_num [usedWpm])

/-- Claim C3: fewer than 10 events, or fewer than 5 events with a defined
interval, always yields Neutral, confidence 0, and an empty indicators
dict, whatever the events and the other arguments are. -/
theorem C3_insufficient_data (events : List Event) (w? : Option ℚ) (cv : ℚ)
    (h : events.length < 10 ∨ (intervalsOf events).length < 5) :
    detect_mood events w? cv = ⟨Mood.neutral, 0, none⟩ := by
  rcases h with h | h
  · unfold detect_mood; rw [if_pos h]
  · by_cases h1 : events.length < 10
    · unfold detect_mood; rw [if_pos h1]
    · unfold detect_mood; rw [if_neg h1, if_pos h]

/-- Concrete instance of C3: the empty list is classified Neutral with
confidence 0 and no indicators. -/
theorem C3_insufficient_data_witness :
    detect_mood [] none 0 = ⟨Mood.neutral, 0, none⟩ :=
  C3_insufficient_data [] none 0 (Or.inl (by decide))

/-- Claim C6, amended: when no wpm is supplied and the session span is
positive, the wpm `detect_mood` uses is `(n/5) / max(span_minutes, 0.01)`
and the indicators report it rounded to one decimal; when the span is
zero (or negative) the wpm used and reported is 0, not
`(n/5) / 0.01`. -/
theorem C6_wpm_estimate (events : List Event) (cv : ℚ)
    (h10 : 10 ≤ events.length) (h5 : 5 ≤ (intervalsOf events).length) :
    (0 < spanMinutes events →
      usedWpm events none
        = ((events.length : ℚ) / 5) / max (spanMinutes events) (1/100))
    ∧ (spanMinutes events ≤ 0 → usedWpm events none = 0)
    ∧ (detect_mood events none cv).indicators = some (indOf events none cv)
    ∧ (indOf events none cv).wpm = pyRound (usedWpm events none) 1 := by
  refine ⟨?_, ?_, ?_, rfl⟩
  · intro h; unfold usedWpm; rw [if_pos h]
  · intro h; unfold usedWpm; rw [if_neg (not_lt.mpr h)]
  · unfold detect_mood
    rw [if_neg (by omega : ¬ events.length < 10),
      if_neg (by omega : ¬ (intervalsOf events).length < 5)]
    split_ifs <;> rfl

/-- Helper: the span of `events10s` is half a minute. -/
theorem spanMinutes_events10s : spanMinutes events10s = 1/2 := by
  have h1 : events10s.getLast?
      = some { timestamp := 30000, interval := some 100, is_pause := false,
               is_burst := false } := rfl
  have h2 : events10s.head?
      = some { timestamp := 0, interval := some 100, is_pause := false,
               is_burst := false } := rfl
  unfold spanMinutes
  rw [h1, h2]
  norm_num

/-- Concrete instance of C6 (amended): 10 events spanning 0.5 min give
used wpm `(10/5)/0.5 = 4`, reported as `4.0`. -/
theorem C6_wpm_estimate_witness :
    usedWpm events10s none
      = ((events10s.length : ℚ) / 5) / max (spanMinutes events10s) (1/100)
    ∧ (indOf events10s none 0).wpm = pyRound (usedWpm events10s none) 1 :=
  ⟨((C6_wpm_estimate events10s 0 (by decide) (by decide)).1
      (by rw [spanMinutes_events10s]; norm_num)),
    (C6_wpm_estimate events10s 0 (by decide) (by decide)).2.2.2⟩

/-- Counterexample to C6 as stated: ten events that all share one
timestamp (zero span) but have defined intervals pass the sufficiency
thresholds; the code reports wpm 0 in the indicators, while the claim's
formula `(n/5)/max(span, 0.01)` gives 200. -/
theorem C6_counterexample :
    (detect_mood events10z none 0).indicators = some (indOf events10z none 0)
    ∧ (indOf events10z none 0).wpm = 0
    ∧ pyRound (((events10z.length : ℚ) / 5) / max (spanMinutes events10z) (1/100)) 1
        = 200
    ∧ (indOf events10z none 0).wpm
        ≠ pyRound (((events10z.length : ℚ) / 5) / max (spanMinutes events10z) (1/100)) 1 := by
  have hspan : spanMinutes events10z = 0 := by
    have h1 : events10z.getLast?
        = some { timestamp := 1000, interval := some 100, is_pause := false,
                 is_burst := false } := rfl
    have h2 : events10z.head?
        = some { timestamp := 1000, interval := some 100, is_pause := false,
                 is_burst := false } := rfl
    unfold spanMinutes
    rw [h1, h2]
    norm_num
  have hwpm : usedWpm events10z none = 0 := by
    unfold usedWpm
    rw [hspan]
    norm_num
  have hA : (indOf events10z none 0).wpm = 0 := by
    show pyRound (usedWpm events10z none) 1 = 0
    rw [hwpm, pyRound_eq 0 1 0 (by norm_num)]
    norm_num
  have hB : pyRound (((events10z.length : ℚ) / 5) / max (spanMinutes events10z) (1/100)) 1
      = 200 := by
    have hlen : events10z.length = 10 := by decide
    rw [hlen, hspan,
      show ((10:ℕ):ℚ) / 5 / max 0 (1/100) = 200 by
        rw [max_eq_right (by norm_num : (0:ℚ) ≤ 1/100)]; norm_num,
      pyRound_eq 200 1 2000 (by norm_num)]
    norm_num
  refine ⟨?_, hA, hB, by rw [hA, hB]; norm_num⟩
  unfold detect_mood
  rw [if_neg (by decide : ¬ events10z.length < 10),
    if_neg (by decide : ¬ (intervalsOf events10z).length < 5)]
  split_ifs <;> rfl

/-- Helper: membership bound for `pyRange` positions. -/
theorem pyRange_pos_lt (stop step k : ℕ) (hstep : 1 ≤ step)
    (hk : k < (stop + step - 1) / step) : k * step < stop := by
  have h2 : k + 1 ≤ (stop + step - 1) / step := hk
  rw [Nat.le_div_iff_mul_le (by omega : 0 < step)] at h2
  rw [Nat.succ_mul] at h2
  omega

/-- Claim C4: a list shorter than the window yields exactly the one point
built from `analyze_session` of the whole list; a list of length at least
`window_size ≥ 1` yields one point per full window taken at stride
`max(1, window_size // 2)` from index 0 — position `k` holds the point of
the full-size window at offset `k*step`, every window fits entirely
(`k*step + ws ≤ n`, so a partial tail never contributes), and the number
of points is the exact fixed-stride count. -/
theorem C4_timeline_shape (cvF : List ℚ → ℚ) (events : List Event) (ws : ℕ) :
    (events.length < ws →
      calculate_mood_timeline cvF events ws = [pointOf cvF events])
    ∧ (ws ≤ events.length → 1 ≤ ws →
        (calculate_mood_timeline cvF events ws).length
            = (events.length - ws + 1 + max 1 (ws / 2) - 1) / max 1 (ws / 2)
        ∧ ∀ k, k < (calculate_mood_timeline cvF events ws).length →
            k * max 1 (ws / 2) + ws ≤ events.length
            ∧ ((events.drop (k * max 1 (ws / 2))).take ws).length = ws
            ∧ (calculate_mood_timeline cvF events ws).getD k (pointOf cvF [])
                = pointOf cvF ((events.drop (k * max 1 (ws / 2))).take ws)) := by
  constructor
  · intro h
    unfold calculate_mood_timeline
    rw [if_pos h]
  · intro hws _
    have hneg : ¬ events.length < ws := not_lt.mpr hws
    unfold calculate_mood_timeline
    rw [if_neg hneg]
    have hlen : ((pyRange (events.length - ws + 1) (max 1 (ws / 2))).map
        (fun i => pointOf cvF ((events.drop i).take ws))).length
        = (events.length - ws + 1 + max 1 (ws / 2) - 1) / max 1 (ws / 2) := by
      simp [pyRange]
    refine ⟨hlen, ?_⟩
    intro k hk
    rw [hlen] at hk
    have hkr : k < (events.length - ws + 1 + max 1 (ws / 2) - 1) / max 1 (ws / 2) := hk
    have hstop : k * max 1 (ws / 2) < events.length - ws + 1 :=
      pyRange_pos_lt _ _ _ (le_max_left _ _) hkr
    have hfit : k * max 1 (ws / 2) + ws ≤ events.length := by omega
    refine ⟨hfit, ?_, ?_⟩
    · rw [List.length_take, List.length_drop]
      omega
    · simp only [pyRange, List.map_map]
      rw [List.getD_eq_getElem?_getD, List.getElem?_map, List.getElem?_range
        (by simpa [pyRange] using hkr)]
      rfl

/-- Concrete instance of C4: a one-event list with window size 1 yields a
timeline of the exact fixed-stride length, namely 1. -/
theorem C4_timeline_shape_witness :
    (calculate_mood_timeline (fun _ => 0) [exNormEvent] 1).length = 1 := by
  have h := ((C4_timeline_shape (fun _ => 0) [exNormEvent] 1).2
    (by decide) (by decide)).1
  exact h.trans (by decide)

/-- Helper: evaluate `pyRound` from the scaled integer and the quotient. -/
theorem pyRound_eq_of (q : ℚ) (k : ℕ) (m : ℤ) (r : ℚ)
    (h1 : q * 10 ^ k = (m : ℚ)) (h2 : (m : ℚ) / 10 ^ k = r) :
    pyRound q k = r := by
  unfold pyRound
  rw [h1, roundHalfEven_int, h2]

/-- Helper: the state `_on_press` leaves behind, whatever the callback
does. -/
theorem on_press_fst (s : LoggerState)
    (cb : Option (Event → Except String Unit)) (now : ℚ) :
    (on_press s cb now).1
      = { s with last_keypress_time := some now,
                 keypress_count := s.keypress_count + 1,
                 events := s.events ++ [newEventOf s now] } := by
  unfold on_press
  rcases cb with _ | f
  · rfl
  · dsimp only
    cases hfe : f (newEventOf s now) with
    | error msg => rfl
    | ok u => rfl

/-- Claim C5, amended: two `get_current_stats` reads with no intervening
keypress agree on every field that does not involve the clock
(avg_interval, pause_count, burst_count, keypress_count); they agree on
all fields when the recorder is stopped or has no events, or when the two
reads observe the same clock instant.  In general `wpm` and
`session_duration` depend on the time of the call, so two reads at
different instants differ. -/
theorem C5_stats_idempotent_fields (s : LoggerState) (t1 t2 : ℚ) :
    (get_current_stats s t1).avg_interval = (get_current_stats s t2).avg_interval
    ∧ (get_current_stats s t1).pause_count = (get_current_stats s t2).pause_count
    ∧ (get_current_stats s t1).burst_count = (get_current_stats s t2).burst_count
    ∧ (get_current_stats s t1).keypress_count
        = (get_current_stats s t2).keypress_count
    ∧ (s.is_running = false ∨ s.events = [] →
        get_current_stats s t1 = get_current_stats s t2)
    ∧ (t1 = t2 → get_current_stats s t1 = get_current_stats s t2) := by
  unfold get_current_stats
  by_cases h : s.is_running = false ∨ s.events = []
  · rw [if_pos h, if_pos h]
    exact ⟨rfl, rfl, rfl, rfl, fun _ => rfl, fun _ => rfl⟩
  · rw [if_neg h, if_neg h]
    exact ⟨rfl, rfl, rfl, rfl, fun hc => absurd hc h, fun ht => by rw [ht]⟩

/-- Concrete instance of C5 (amended): on a stopped recorder the two
reads are identical even at different instants. -/
theorem C5_stats_idempotent_fields_witness :
    get_current_stats stoppedState 0 = get_current_stats stoppedState 60000 :=
  (C5_stats_idempotent_fields stoppedState 0 60000).2.2.2.2.1 (Or.inl rfl)

/-- Counterexample to C5 as stated: a running recorder with one event
read at minute 1 and at minute 2 reports wpm 0.2 and then 0.1 — the two
results are not identical although no keypress intervened. -/
theorem C5_counterexample :
    (get_current_stats runningState1 60000).wpm = 1/5
    ∧ (get_current_stats runningState1 120000).wpm = 1/10
    ∧ get_current_stats runningState1 60000
        ≠ get_current_stats runningState1 120000 := by
  have hne : ¬ (runningState1.is_running = false ∨ runningState1.events = []) := by
    simp [runningState1]
  have hw1 : (get_current_stats runningState1 60000).wpm = 1/5 := by
    unfold get_current_stats
    rw [if_neg hne]
    dsimp only [runningState1]
    exact pyRound_eq_of _ _ 2 _ (by norm_num [max_def]) (by norm_num)
  have hw2 : (get_current_stats runningState1 120000).wpm = 1/10 := by
    unfold get_current_stats
    rw [if_neg hne]
    dsimp only [runningState1]
    exact pyRound_eq_of _ _ 1 _ (by norm_num [max_def]) (by norm_num)
  refine ⟨hw1, hw2, fun h => ?_⟩
  have := congrArg CurrentStats.wpm h
  rw [hw1, hw2] at this
  norm_num at this

/-- Claim C7, amended: the capture path always completes — the event is
appended, the counter incremented and the last-keypress time updated
whether or not the observer callback raises — but the source has no
try/except around the observer call, so a raising observer's error does
leave `_on_press` toward the input layer. -/
theorem C7_capture_completes (s : LoggerState)
    (cb : Option (Event → Except String Unit)) (now : ℚ) :
    (on_press s cb now).1.events = s.events ++ [newEventOf s now]
    ∧ (on_press s cb now).1.keypress_count = s.keypress_count + 1
    ∧ (on_press s cb now).1.last_keypress_time = some now := by
  rw [on_press_fst]
  exact ⟨rfl, rfl, rfl⟩

/-- Counterexample to C7 as stated: a callback that raises makes
`_on_press` end with that error (the second component is not `none`,
i.e. the error is propagated), even though the state update completed. -/
theorem C7_counterexample :
    (on_press startedState (some (fun _ => Except.error "boom")) 5).2
        = some "boom"
    ∧ (on_press startedState (some (fun _ => Except.error "boom")) 5).2
        ≠ none
    ∧ (on_press startedState (some (fun _ => Except.error "boom")) 5).1.events
        = [newEventOf startedState 5] := by
  refine ⟨rfl, ?_, ?_⟩
  · intro h
    exact Option.noConfusion ((rfl :
      (on_press startedState (some (fun _ => Except.error "boom")) 5).2
        = some "boom") ▸ h)
  · rw [on_press_fst]
    rfl

/-- Claim C9: `_on_press` preserves the event invariant — no event it has
produced is both pause and burst, and an event without an interval (the
first of a session) has neither flag. -/
theorem C9_pause_burst_exclusive (s : LoggerState)
    (cb : Option (Event → Except String Unit)) (now : ℚ)
    (h : ∀ e ∈ s.events, eventOK e) :
    ∀ e ∈ (on_press s cb now).1.events, eventOK e := by
  intro e he
  rw [on_press_fst] at he
  simp only [List.mem_append, List.mem_singleton] at he
  rcases he with he | rfl
  · exact h e he
  · unfold newEventOf
    rcases s.last_keypress_time with _ | t
    · exact ⟨by simp, fun _ => ⟨rfl, rfl⟩⟩
    · refine ⟨?_, ?_⟩
      · rintro ⟨hp, hb⟩
        rw [decide_eq_true_eq] at hp hb
        linarith
      · intro hnone
        exact absurd hnone (by simp)

/-- Concrete instance of C9: the first event of a fresh session has no
interval and neither flag, satisfying the invariant. -/
theorem C9_pause_burst_exclusive_witness :
    eventOK { timestamp := 5, interval := none, is_pause := false,
              is_burst := false, session_id := some "sid" } := by
  have h := C9_pause_burst_exclusive startedState none 5
    (by simp [startedState])
  exact h _ (by rw [on_press_fst]; simp [startedState, newEventOf])

/-- Helper: a fold whose step fixes `a` returns `a`. -/
theorem foldl_const {α β : Type _} (f : α → β → α) (l : List β) (a : α)
    (h : ∀ b, f a b = a) : l.foldl f a = a := by
  induction l with
  | nil => rfl
  | cons x xs ih => rw [List.foldl_cons, h x]; exact ih

/-- Helper: `getCell` through `getElem?`. -/
theorem getCell_eq (m : List (List ℤ)) (d h : ℕ) :
    getCell m d h = ((m[d]?).getD [])[h]?.getD 0 := by
  unfold getCell
  rw [List.getD_eq_getElem?_getD, List.getD_eq_getElem?_getD]

/-- Helper: the initial matrix is all zero. -/
theorem AZ_init : AZ initMatrix := by
  intro row hrow x hx
  simp only [initMatrix] at hrow
  rw [List.eq_of_mem_replicate hrow] at hx
  exact List.eq_of_mem_replicate hx

/-- Helper: any cell of an all-zero matrix reads 0. -/
theorem getCell_zero (m : List (List ℤ)) (hm : AZ m) (d h : ℕ) :
    getCell m d h = 0 := by
  rw [getCell_eq]
  rcases hd : m[d]? with _ | row
  · rfl
  · simp only [Option.getD_some]
    rcases hx : row[h]? with _ | x
    · rfl
    · simp only [Option.getD_some]
      exact hm row (List.getElem?_mem hd) x (List.getElem?_mem hx)

/-- Helper: writing a zero into an all-zero matrix keeps it all zero. -/
theorem AZ_applyStat (m : List (List ℤ)) (s : HourStat) (hm : AZ m)
    (hz : s.keypress_count = 0) : AZ (applyStat m s) := by
  intro row hrow x hx
  unfold applyStat setCell at hrow
  rcases List.mem_or_eq_of_mem_set hrow with h1 | h1
  · exact hm row h1 x hx
  · subst h1
    rcases List.mem_or_eq_of_mem_set hx with h2 | h2
    · rw [List.getD_eq_getElem?_getD] at h2
      rcases hd : m[s.day_of_week]? with _ | row'
      · rw [hd] at h2
        simp at h2
      · rw [hd] at h2
        simp only [Option.getD_some] at h2
        exact hm row' (List.getElem?_mem hd) x h2
    · exact h2.trans hz

/-- Helper: a stat list of zero counts builds an all-zero matrix. -/
theorem AZ_buildMatrix (stats : List HourStat)
    (hz : ∀ s ∈ stats, s.keypress_count = 0) : AZ (buildMatrix stats) := by
  unfold buildMatrix
  have main : ∀ (l : List HourStat) (m : List (List ℤ)),
      (∀ s ∈ l, s.keypress_count = 0) → AZ m → AZ (l.foldl applyStat m) := by
    intro l
    induction l with
    | nil => intro m _ hm; exact hm
    | cons a as ih =>
      intro m hzl hm
      rw [List.foldl_cons]
      exact ih (applyStat m a)
        (fun s hs => hzl s (List.mem_cons_of_mem a hs))
        (AZ_applyStat m a hm (hzl a (List.mem_cons_self a as)))
  exact main stats initMatrix hz AZ_init

/-- Helper: the peak scan over an all-zero matrix never updates its
accumulator. -/
theorem peakScan_zero (m : List (List ℤ)) (hc : ∀ d h, getCell m d h = 0) :
    peakScan m = (0, 0, 0) := by
  unfold peakScan
  apply foldl_const
  intro day
  apply foldl_const
  intro hour
  rw [hc day hour]
  simp

/-- Helper: the initial matrix has 7 rows of 24. -/
theorem Shaped_init : Shaped initMatrix := by
  constructor
  · rfl
  · intro row hrow
    simp only [initMatrix] at hrow
    rw [List.eq_of_mem_replicate hrow]
    rfl

/-- Helper: a cell write preserves the matrix shape. -/
theorem Shaped_setCell (m : List (List ℤ)) (d h : ℕ) (v : ℤ)
    (hm : Shaped m) : Shaped (setCell m d h v) := by
  unfold setCell
  by_cases hd : d < m.length
  · refine ⟨by rw [List.length_set]; exact hm.1, ?_⟩
    intro row hrow
    rcases List.mem_or_eq_of_mem_set hrow with h1 | h1
    · exact hm.2 row h1
    · subst h1
      rw [List.length_set, List.getD_eq_getElem?_getD,
        List.getElem?_eq_getElem hd]
      simp only [Option.getD_some]
      exact hm.2 _ (List.getElem_mem hd)
  · rw [List.set_eq_of_length_le (le_of_not_lt hd)]
    exact hm

/-- Helper: the fill loop preserves the matrix shape. -/
theorem Shaped_foldl (l : List HourStat) (m : List (List ℤ))
    (hm : Shaped m) : Shaped (l.foldl applyStat m) := by
  induction l generalizing m with
  | nil => exact hm
  | cons a as ih =>
    rw [List.foldl_cons]
    exact ih (applyStat m a) (Shaped_setCell m _ _ _ hm)

/-- Helper: reading after an in-range write — the written cell holds the
new value, every other cell is unchanged. -/
theorem getCell_setCell (m : List (List ℤ)) (hm : Shaped m)
    (d' h' : ℕ) (hd' : d' < 7) (hh' : h' < 24) (v : ℤ) (d h : ℕ) :
    getCell (setCell m d' h' v) d h
      = if d' = d ∧ h' = h then v else getCell m d h := by
  have hdm : d' < m.length := by rw [hm.1]; exact hd'
  simp only [getCell, setCell, List.getD_eq_getElem?_getD]
  have hrl : ((m[d']?).getD ([] : List ℤ)).length = 24 := by
    rw [List.getElem?_eq_getElem hdm]
    simp only [Option.getD_some]
    exact hm.2 _ (List.getElem_mem hdm)
  by_cases hdd : d' = d
  · subst hdd
    by_cases hhh : h' = h
    · subst hhh
      rw [if_pos (⟨rfl, rfl⟩ : d' = d' ∧ h' = h'), List.getElem?_set_self hdm]
      simp only [Option.getD_some]
      rw [List.getElem?_set_self (by rw [hrl]; exact hh')]
      rfl
    · rw [if_neg (fun hc => hhh hc.2), List.getElem?_set_self hdm]
      simp only [Option.getD_some]
      rw [List.getElem?_set_ne hhh]
  · rw [if_neg (fun hc => hdd hc.1), List.getElem?_set_ne hdd]

/-- Helper: after the fill loop an in-range cell holds the count of the
last stat record addressing it, or the starting cell value if none
does. -/
theorem getCell_foldl (stats : List HourStat) (m : List (List ℤ))
    (hm : Shaped m)
    (hin : ∀ s ∈ stats, s.day_of_week < 7 ∧ s.hour < 24) (d h : ℕ) :
    getCell (stats.foldl applyStat m) d h
      = (((stats.filter (fun s => s.day_of_week == d && s.hour == h)).getLast?).map
          (fun s => s.keypress_count)).getD (getCell m d h) := by
  revert hin
  induction stats using List.reverseRecOn with
  | nil => intro _; rfl
  | append_singleton l a ih =>
    intro hin
    have hin_l : ∀ s ∈ l, s.day_of_week < 7 ∧ s.hour < 24 :=
      fun s hs => hin s (List.mem_append_left _ hs)
    have hin_a : a.day_of_week < 7 ∧ a.hour < 24 :=
      hin a (List.mem_append_right _ (List.mem_singleton_self a))
    rw [List.foldl_append, List.foldl_cons, List.foldl_nil,
      List.filter_append]
    have hM : Shaped (l.foldl applyStat m) := Shaped_foldl l m hm
    have happ : applyStat (l.foldl applyStat m) a
        = setCell (l.foldl applyStat m) a.day_of_week a.hour
            a.keypress_count := rfl
    rw [happ, getCell_setCell _ hM _ _ hin_a.1 hin_a.2]
    by_cases hpa : (a.day_of_week == d && a.hour == h) = true
    · have hcond : a.day_of_week = d ∧ a.hour = h := by simpa using hpa
      rw [if_pos hcond,
        show List.filter (fun s => s.day_of_week == d && s.hour == h) [a]
            = [a] from by simp [List.filter_cons, hpa],
        List.getLast?_concat]
      rfl
    · have hcond : ¬(a.day_of_week = d ∧ a.hour = h) := by simpa using hpa
      rw [if_neg hcond,
        show List.filter (fun s => s.day_of_week == d && s.hour == h) [a]
            = [] from by
          simp only [Bool.not_eq_true] at hpa
          simp [List.filter_cons, hpa],
        List.append_nil]
      exact ih hin_l

/-- Helper: every cell of the initial matrix is 0. -/
theorem getCell_init (d h : ℕ) : getCell initMatrix d h = 0 :=
  getCell_zero initMatrix AZ_init d h

/-- Helper: on a non-empty stat list whose counts are all zero, the
weekly rhythm has no insights, zero (not null) peak coordinates and an
all-zero matrix. -/
theorem weekly_rhythm_all_zero (stats : List HourStat) (hne : stats ≠ [])
    (hz : ∀ s ∈ stats, s.keypress_count = 0) :
    (get_weekly_rhythm stats).insights = []
    ∧ (get_weekly_rhythm stats).peak_hour = some 0
    ∧ (get_weekly_rhythm stats).peak_day = some 0
    ∧ AZ (get_weekly_rhythm stats).activity_matrix := by
  have hAZ : AZ (buildMatrix stats) := AZ_buildMatrix stats hz
  have hpk : peakScan (buildMatrix stats) = (0, 0, 0) :=
    peakScan_zero _ (getCell_zero _ hAZ)
  have hany : ((buildMatrix stats).map (fun row => row.sum)).any
      (fun t => t != 0) = false := by
    rw [List.any_eq_false]
    intro t ht
    rcases List.mem_map.mp ht with ⟨row, hrow, rfl⟩
    simp [List.sum_eq_zero (fun x hx => hAZ row hrow x hx)]
  unfold get_weekly_rhythm
  rw [if_neg hne]
  dsimp only
  rw [hpk, hany]
  refine ⟨by simp, rfl, rfl, hAZ⟩

/-- Claim C8, amended: an empty stat list yields all-null/empty fields;
a non-empty list whose counts are all zero yields empty insights and an
all-zero matrix, but `peak_hour = 0` and `peak_day = 0` rather than null
(the peak variables keep their scan initialisers); hence insight strings
appear only when some nonzero count exists. -/
theorem C8_no_activity (stats : List HourStat) :
    (stats = [] → get_weekly_rhythm stats = ⟨none, none, [], []⟩)
    ∧ (stats ≠ [] → (∀ s ∈ stats, s.keypress_count = 0) →
        (get_weekly_rhythm stats).insights = []
        ∧ (get_weekly_rhythm stats).peak_hour = some 0
        ∧ (get_weekly_rhythm stats).peak_day = some 0
        ∧ AZ (get_weekly_rhythm stats).activity_matrix) := by
  constructor
  · intro h
    subst h
    rfl
  · intro hne hz
    exact weekly_rhythm_all_zero stats hne hz

/-- Concrete instance of C8 (amended): one all-zero record gives empty
insights and zero peak coordinates. -/
theorem C8_no_activity_witness :
    (get_weekly_rhythm [⟨0, 0, 0⟩]).insights = []
    ∧ (get_weekly_rhythm [⟨0, 0, 0⟩]).peak_hour = some 0 := by
  have h := (C8_no_activity [⟨0, 0, 0⟩]).2 (by simp)
    (by intro s hs; rw [List.mem_singleton] at hs; rw [hs])
  exact ⟨h.1, h.2.1⟩

/-- Counterexample to C8 as stated: a non-empty stat list with every
count zero ("no activity") still yields `peak_hour = 0` and
`peak_day = 0`, not the null fields the claim asserts. -/
theorem C8_counterexample :
    (get_weekly_rhythm [⟨1, 9, 0⟩]).peak_hour = some 0
    ∧ (get_weekly_rhythm [⟨1, 9, 0⟩]).peak_hour ≠ none
    ∧ (get_weekly_rhythm [⟨1, 9, 0⟩]).insights = [] := by
  have h := weekly_rhythm_all_zero [⟨1, 9, 0⟩] (by simp)
    (by intro s hs; rw [List.mem_singleton] at hs; rw [hs])
  refine ⟨h.2.1, ?_, h.1⟩
  rw [h.2.1]
  simp

/-- Claim C10: the activity-matrix cell for an in-range (day, hour) pair
holds the count of the last stat record in list order addressing that
pair (or 0 if none does): later duplicates overwrite, counts are not
summed; and for non-empty input this matrix is the one
`get_weekly_rhythm` returns. -/
theorem C10_matrix_last_wins (stats : List HourStat) (d h : ℕ)
    (hin : ∀ s ∈ stats, s.day_of_week < 7 ∧ s.hour < 24) :
    getCell (buildMatrix stats) d h
      = (((stats.filter (fun s => s.day_of_week == d && s.hour == h)).getLast?).map
          (fun s => s.keypress_count)).getD 0
    ∧ (stats ≠ [] →
        (get_weekly_rhythm stats).activity_matrix = buildMatrix stats) := by
  constructor
  · unfold buildMatrix
    rw [getCell_foldl stats initMatrix Shaped_init hin d h, getCell_init]
  · intro hne
    unfold get_weekly_rhythm
    rw [if_neg hne]

/-- Concrete instance of C10: two records for (day 1, hour 2) with counts
5 then 7 leave 7 in the cell. -/
theorem C10_matrix_last_wins_witness :
    getCell (buildMatrix [⟨1, 2, 5⟩, ⟨1, 2, 7⟩]) 1 2 = 7 := by
  have h := (C10_matrix_last_wins [⟨1, 2, 5⟩, ⟨1, 2, 7⟩] 1 2 (by decide)).1
  rw [h]
  rfl

end MoodRhythm
